import Mathlib

/-!
Verification of the FLPerformance benchmark engine and storage layer.

Shallow embedding of the JavaScript sources:
* `src/src/server/logger.js` — `BenchmarkEngine` (`calculatePercentile`,
  `runSingleInference`, `runScenario`, `runBenchmark`, the `runningBenchmarks`
  status registry);
* `src/unnamed/part_007` — `Storage` (`saveBenchmarkResult`, `getBenchmarkResults`,
  `getBenchmarkRun`, `exportToJSON`, `exportToCSV`), in both its SQLite and its
  JSON-file-fallback branches;
* `src/unnamed/part_008` — the Express export routes
  `GET /api/benchmarks/runs/:id/export/{json,csv}`.

JavaScript numbers are modelled as `ℚ` (no floating-point claims are settled
here), JavaScript `null` as `Option.none`, and the JS falsy coercion
`v || null` (which turns `0` and `NaN` into `null`) as `jsOrNull`.
-/

/-! ### JS helpers -/

/-- JS `v || null` for a numeric value: `0` (and `NaN`, which here only arises
as `0/0 = 0` in `ℚ`) is falsy and becomes `null`. -/
def jsOrNull (x : ℚ) : Option ℚ := if x = 0 then none else some x

/-- JS `v || null` where `v` may itself already be `null`. -/
def jsOrNullOpt (x : Option ℚ) : Option ℚ :=
  match x with
  | none => none
  | some v => jsOrNull v

/-- JS `v || d` for an optional numeric field: `undefined`, `null` and `0` all
fall back to the default `d`. -/
def jsOrDefaultNat (x : Option ℕ) (d : ℕ) : ℕ :=
  match x with
  | none => d
  | some v => if v = 0 then d else v

/-- JS `v || d` for an optional rational field. -/
def jsOrDefaultRat (x : Option ℚ) (d : ℚ) : ℚ :=
  match x with
  | none => d
  | some v => if v = 0 then d else v

/-- JS `Math.round` (`⌊x + 1/2⌋`; exact for the non-negative arguments that
occur in progress computation). -/
def jsRound (x : ℚ) : ℤ := ⌊x + 1 / 2⌋

/-! ### Percentile computation

`BenchmarkEngine.calculatePercentile` (src/src/server/logger.js lines 113-117):

    calculatePercentile(sortedArray, percentile) {
      if (sortedArray.length === 0) return 0;
      const index = Math.ceil((percentile / 100) * sortedArray.length) - 1;
      return sortedArray[Math.max(0, index)];
    }
-/

/-- The array index used by `calculatePercentile`:
`Math.max(0, Math.ceil((percentile / 100) * length) - 1)`. -/
def percentileIndex (len percentile : ℕ) : ℕ :=
  (max 0 ((⌈(percentile : ℚ) / 100 * (len : ℚ)⌉ : ℤ) - 1)).toNat

/-- `BenchmarkEngine.calculatePercentile`.  JS array access past the end yields
`undefined`; this is modelled by `Option.getD _ 0` together with the separate
in-bounds lemmas below. -/
def calculatePercentile (sortedArray : List ℚ) (percentile : ℕ) : ℚ :=
  if sortedArray.length = 0 then 0
  else sortedArray.getD (percentileIndex sortedArray.length percentile) 0

theorem percentileIndex_eq_of_pos {len p : ℕ} (hp : 1 ≤ p) (hlen : 0 < len) :
    (percentileIndex len p : ℤ) = (⌈(p : ℚ) / 100 * (len : ℚ)⌉ : ℤ) - 1 := by
  have hceil : 1 ≤ (⌈(p : ℚ) / 100 * (len : ℚ)⌉ : ℤ) := by
    have hpos : (0 : ℚ) < (p : ℚ) / 100 * (len : ℚ) := by
      apply mul_pos
      · apply div_pos
        · exact_mod_cast hp
        · norm_num
      · exact_mod_cast hlen
    have := Int.lt_ceil.mpr (by exact_mod_cast hpos : ((0 : ℤ) : ℚ) < (p : ℚ) / 100 * (len : ℚ))
    omega
  unfold percentileIndex
  omega

theorem percentileIndex_lt {len p : ℕ} (hlen : 0 < len) (hp1 : 1 ≤ p) (hp2 : p ≤ 100) :
    percentileIndex len p < len := by
  have hle : (⌈(p : ℚ) / 100 * (len : ℚ)⌉ : ℤ) ≤ (len : ℤ) := by
    rw [Int.ceil_le]
    push_cast
    have h1 : (p : ℚ) / 100 ≤ 1 := by
      rw [div_le_one (by norm_num : (0 : ℚ) < 100)]
      exact_mod_cast hp2
    calc (p : ℚ) / 100 * (len : ℚ) ≤ 1 * (len : ℚ) :=
          mul_le_mul_of_nonneg_right h1 (by positivity)
      _ = (len : ℚ) := one_mul _
  have hi := percentileIndex_eq_of_pos hp1 hlen
  omega

theorem percentileIndex_mono {len p q : ℕ} (hpq : p ≤ q) :
    percentileIndex len p ≤ percentileIndex len q := by
  have hx : ((p : ℚ) / 100 * (len : ℚ)) ≤ ((q : ℚ) / 100 * (len : ℚ)) := by
    have : (p : ℚ) ≤ (q : ℚ) := by exact_mod_cast hpq
    gcongr
  have hceil := Int.ceil_mono hx
  unfold percentileIndex
  omega

theorem calculatePercentile_nil (p : ℕ) : calculatePercentile [] p = 0 := rfl

/-- Element of a sorted list at a smaller in-bounds index is `≤` the element at
a larger in-bounds index (stated through `getD`, the total JS-style access). -/
theorem sorted_getD_le (L : List ℚ) (h : L.Sorted (· ≤ ·)) (i j : ℕ) (hij : i ≤ j)
    (hj : j < L.length) : L.getD i 0 ≤ L.getD j 0 := by
  have hi : i < L.length := lt_of_le_of_lt hij hj
  rw [List.getD_eq_getElem L 0 hi, List.getD_eq_getElem L 0 hj]
  exact h.rel_get_of_le (a := ⟨i, hi⟩) (b := ⟨j, hj⟩) hij

/-! ### Engine data model

Structures mirroring the objects of `src/src/server/logger.js`. -/

/-- A model descriptor as stored by the repository (`storage.getModel`):
created by registration with `alias` and `model_id`; `model_id` is the
backend-facing identifier (possibly with a device-variant suffix). -/
structure ModelDescriptor where
  id : String
  «alias» : String
  model_id : String
deriving Repr, DecidableEq

/-- The loaded-model info cached by the orchestrator
(`orchestrator.getLoadedModelInfo(modelId)`), carrying the backend-canonical
`id` used on inference calls plus the human `alias`. -/
structure LoadedModelInfo where
  id : String
  «alias» : String
deriving Repr, DecidableEq

/-- A benchmark scenario (`scenario.name`, `scenario.prompt`,
`scenario.max_tokens`). -/
structure Scenario where
  name : String
  prompt : String
  max_tokens : Option ℕ
deriving Repr, DecidableEq

/-- The run configuration object (`config.iterations`, `config.timeout`,
`config.temperature`, `config.streaming`). -/
structure RunConfig where
  iterations : ℕ
  timeout : Option ℕ
  temperature : Option ℚ
  streaming : Bool
deriving Repr, DecidableEq

/-- The argument object passed to
`client.chat.completions.create({model, messages, max_tokens, temperature,
stream})` in `runSingleInference` (logger.js lines 226-232 and 257-262). -/
structure ChatRequest where
  model : String
  prompt : String
  maxTokens : ℕ
  temperature : ℚ
  stream : Bool
deriving Repr, DecidableEq

/-- The `metrics` record built by `runSingleInference` (logger.js lines
187-195): `latency` stands for `endTime - startTime`. -/
structure IterationMetrics where
  latency : ℚ
  ttft : Option ℚ
  tokens : ℕ
  interTokenDelays : List ℚ
  error : Option String
  timeout : Bool
deriving Repr, DecidableEq

/-- One `collectResourceMetrics()` sample (`{cpu, ram, gpu}`, each possibly
`null`). -/
structure ResourceSample where
  cpu : Option ℚ
  ram : Option ℚ
  gpu : Option ℚ
deriving Repr, DecidableEq

/-- The per-iteration `{before, after}` resource snapshot pushed onto
`results.resourceSnapshots` (logger.js lines 418-421). -/
structure Snapshot where
  before : ResourceSample
  after : ResourceSample
deriving Repr, DecidableEq

/-- Behaviour of the backend on one inference request, the environment
parameter of `runSingleInference`:
* `success` — the request completes before the deadline;
* `failure` — the request throws before the deadline (caught at logger.js
  line 282, setting `metrics.error`);
* `timeoutAbort` — the deadline fires first (logger.js lines 199-202):
  `metrics.timeout` is set to `true` by the timer callback **and**
  `controller.abort()` makes the pending `await` throw, so the same catch
  block also sets `metrics.error` to the abort message.
The `partial*` fields carry whatever streaming data had accumulated before the
throw. -/
inductive BackendOutcome where
  | success (tokens : ℕ) (ttft : Option ℚ) (delays : List ℚ) (latency : ℚ)
  | failure (msg : String) (partialTokens : ℕ) (partialTtft : Option ℚ)
      (partialDelays : List ℚ) (latency : ℚ)
  | timeoutAbort (abortMsg : String) (partialTokens : ℕ) (partialTtft : Option ℚ)
      (partialDelays : List ℚ) (latency : ℚ)
deriving Repr, DecidableEq

/-- The request object assembled by `runSingleInference`: identical in the
streaming and non-streaming branches except for the `stream` flag.  The model
identifier is `modelInfo.id` (logger.js line 212:
`const modelName = modelInfo.id;`). -/
def buildChatRequest (modelInfo : LoadedModelInfo) (scenario : Scenario)
    (config : RunConfig) : ChatRequest :=
  { model := modelInfo.id
    prompt := scenario.prompt
    maxTokens := jsOrDefaultNat scenario.max_tokens 100
    temperature := jsOrDefaultRat config.temperature (7 / 10)
    stream := config.streaming }

/-- `BenchmarkEngine.runSingleInference` (logger.js lines 186-300), returning
the metrics record together with the chat-completion request it issued.
In the non-streaming branch `metrics.ttft` is `null` (line 266) and
`interTokenDelays` stays empty; on a failure or an abort the catch block
stamps `metrics.error` and `endTime` (lines 282-284). -/
def runSingleInference (modelInfo : LoadedModelInfo) (scenario : Scenario)
    (config : RunConfig) (outcome : BackendOutcome) : IterationMetrics × ChatRequest :=
  let request := buildChatRequest modelInfo scenario config
  let metrics : IterationMetrics :=
    match outcome with
    | .success tokens ttft delays latency =>
        { latency := latency
          ttft := if config.streaming then ttft else none
          tokens := tokens
          interTokenDelays := if config.streaming then delays else []
          error := none
          timeout := false }
    | .failure msg partialTokens partialTtft partialDelays latency =>
        { latency := latency
          ttft := if config.streaming then partialTtft else none
          tokens := if config.streaming then partialTokens else 0
          interTokenDelays := if config.streaming then partialDelays else []
          error := some msg
          timeout := false }
    | .timeoutAbort abortMsg partialTokens partialTtft partialDelays latency =>
        { latency := latency
          ttft := if config.streaming then partialTtft else none
          tokens := if config.streaming then partialTokens else 0
          interTokenDelays := if config.streaming then partialDelays else []
          error := some abortMsg
          timeout := true }
  (metrics, request)

/-! ### Scenario aggregation

`BenchmarkEngine.runScenario` (logger.js lines 305-496).  The iteration loop
(lines 340-425) pushes, per iteration and in order:
* `results.iterations.push(metrics)` always;
* `results.latencies`, `results.ttfts` (when `ttft !== null`),
  `results.tokenCounts`, `results.allInterTokenDelays` only when
  `!metrics.error && !metrics.timeout` (lines 402-413);
* `results.errors++` when `metrics.error`, `results.timeouts++` when
  `metrics.timeout` (lines 415-416) — these two are **not** exclusive;
* `results.resourceSnapshots.push({before, after})` (lines 418-421).
Push-based accumulation over the ordered iteration list is the same as
`filter`/`map` below. -/

/-- An iteration is successful when `!metrics.error && !metrics.timeout`
(logger.js line 402). -/
def isSuccess (m : IterationMetrics) : Bool := m.error.isNone && !m.timeout

/-- `results.latencies`: latencies of successful iterations, in order. -/
def successLatencies (ms : List IterationMetrics) : List ℚ :=
  (ms.filter isSuccess).map (·.latency)

/-- `results.tokenCounts`: token counts of successful iterations. -/
def successTokenCounts (ms : List IterationMetrics) : List ℕ :=
  (ms.filter isSuccess).map (·.tokens)

/-- `results.ttfts`: non-null TTFT values of successful iterations. -/
def successTtfts (ms : List IterationMetrics) : List ℚ :=
  (ms.filter isSuccess).filterMap (·.ttft)

/-- `results.allInterTokenDelays`: concatenated inter-token delays of
successful iterations (pushing only non-empty lists concatenates the same). -/
def successInterTokenDelays (ms : List IterationMetrics) : List ℚ :=
  ((ms.filter isSuccess).map (·.interTokenDelays)).flatten

/-- `results.errors`: iterations whose `metrics.error` is set. -/
def errorCount (ms : List IterationMetrics) : ℕ :=
  (ms.filter (fun m => m.error.isSome)).length

/-- `results.timeouts`: iterations whose `metrics.timeout` is set. -/
def timeoutCount (ms : List IterationMetrics) : ℕ :=
  (ms.filter (fun m => m.timeout)).length

/-- `[...results.latencies].sort((a, b) => a - b)` (logger.js line 428):
ascending numeric sort. -/
def sortAscending (l : List ℚ) : List ℚ := l.insertionSort (· ≤ ·)

/-- Raw mean fed to `avgCpu` (logger.js lines 443-445): sum of the non-null
`after.cpu` samples divided by the length of the **whole** snapshot list. -/
def cpuMeanRaw (snaps : List Snapshot) : ℚ :=
  ((snaps.filter (fun r => r.after.cpu.isSome)).map (fun r => r.after.cpu.getD 0)).sum
    / (snaps.length : ℚ)

/-- Raw mean fed to `avgRam` (logger.js lines 447-449). -/
def ramMeanRaw (snaps : List Snapshot) : ℚ :=
  ((snaps.filter (fun r => r.after.ram.isSome)).map (fun r => r.after.ram.getD 0)).sum
    / (snaps.length : ℚ)

/-- Raw mean fed to `avgGpu` (logger.js lines 451-454): here the denominator is
the number of non-null `after.gpu` samples. -/
def gpuMeanRaw (snaps : List Snapshot) : ℚ :=
  ((snaps.filter (fun r => r.after.gpu.isSome)).map (fun r => r.after.gpu.getD 0)).sum
    / ((snaps.filter (fun r => r.after.gpu.isSome)).length : ℚ)

/-- `avgCpu = (...)/length || null` — the JS `|| null` coercion applies to the
computed mean (a division by zero gives `NaN` in JS and `0` in `ℚ`; both are
coerced to `null`). -/
def avgCpu (snaps : List Snapshot) : Option ℚ := jsOrNull (cpuMeanRaw snaps)

/-- `avgRam`, as `avgCpu`. -/
def avgRam (snaps : List Snapshot) : Option ℚ := jsOrNull (ramMeanRaw snaps)

/-- `avgGpu`, as `avgCpu` but with the filtered denominator. -/
def avgGpu (snaps : List Snapshot) : Option ℚ := jsOrNull (gpuMeanRaw snaps)

/-- The `aggregated` record (logger.js lines 456-472). -/
structure Aggregated where
  tps : ℚ
  ttft : Option ℚ
  tpot : Option ℚ
  gen_tps : Option ℚ
  latency_p50 : ℚ
  latency_p95 : ℚ
  latency_p99 : ℚ
  error_rate : ℚ
  timeout_rate : ℚ
  cpu_avg : Option ℚ
  ram_avg : Option ℚ
  gpu_avg : Option ℚ
  total_tokens : ℕ
  total_iterations : ℕ
  successful_iterations : ℤ
deriving Repr, DecidableEq

/-- The aggregation step of `runScenario` (logger.js lines 427-472), computed
from the per-iteration metrics and resource snapshots accumulated by the loop.
`cfgIterations` is `config.iterations`; the loop guarantees
`ms.length = cfgIterations` and `snaps.length = cfgIterations`.
`successful_iterations` is `ℤ`-valued because the JS subtraction
`config.iterations - results.errors - results.timeouts` can go negative. -/
def aggregateScenario (cfgIterations : ℕ) (ms : List IterationMetrics)
    (snaps : List Snapshot) : Aggregated :=
  let sortedLatencies := sortAscending (successLatencies ms)
  let sortedTtfts := sortAscending (successTtfts ms)
  let totalTokens := (successTokenCounts ms).sum
  let totalTime : ℚ := (successLatencies ms).sum / 1000
  let tps : ℚ := if totalTime > 0 then (totalTokens : ℚ) / totalTime else 0
  let delays := successInterTokenDelays ms
  let tpot : Option ℚ :=
    if delays.length > 0 then some (delays.sum / (delays.length : ℚ)) else none
  let gen_tps : Option ℚ :=
    match tpot with
    | some t => if t > 0 then some (1000 / t) else none
    | none => none
  { tps := tps
    ttft := if sortedTtfts.length > 0 then
        some (sortedTtfts.getD (sortedTtfts.length / 2) 0) else none
    tpot := tpot
    gen_tps := gen_tps
    latency_p50 := calculatePercentile sortedLatencies 50
    latency_p95 := calculatePercentile sortedLatencies 95
    latency_p99 := calculatePercentile sortedLatencies 99
    error_rate := ((errorCount ms : ℚ) / (cfgIterations : ℚ)) * 100
    timeout_rate := ((timeoutCount ms : ℚ) / (cfgIterations : ℚ)) * 100
    cpu_avg := avgCpu snaps
    ram_avg := avgRam snaps
    gpu_avg := avgGpu snaps
    total_tokens := totalTokens
    total_iterations := cfgIterations
    successful_iterations := (cfgIterations : ℤ) - (errorCount ms : ℤ) - (timeoutCount ms : ℤ) }

/-- `BenchmarkEngine.runScenario` after its model/modelInfo guards: runs
`config.iterations` iterations of `runSingleInference` (the backend behaviour
of iteration `i` given by `env i`, the post-inference resource sample by
`renv i`), then aggregates.  Returns the aggregate together with the list of
chat-completion requests issued. -/
def runScenario (modelInfo : LoadedModelInfo) (scenario : Scenario) (config : RunConfig)
    (env : ℕ → BackendOutcome) (renv : ℕ → Snapshot) : Aggregated × List ChatRequest :=
  let ms := (List.range config.iterations).map
    (fun i => (runSingleInference modelInfo scenario config (env i)).1)
  let snaps := (List.range config.iterations).map renv
  (aggregateScenario config.iterations ms snaps,
    (List.range config.iterations).map
      (fun i => (runSingleInference modelInfo scenario config (env i)).2))

/-- The guard clauses at the top of `runScenario` (logger.js lines 309-319):
a missing descriptor or a missing cached `LoadedModelInfo` throws before any
inference is issued. -/
def runScenarioChecked (model? : Option ModelDescriptor)
    (modelInfo? : Option LoadedModelInfo) (scenario : Scenario) (config : RunConfig)
    (env : ℕ → BackendOutcome) (renv : ℕ → Snapshot) :
    Except String (Aggregated × List ChatRequest) :=
  match model? with
  | none => .error "Model not found in storage."
  | some _ =>
    match modelInfo? with
    | none => .error "Model not loaded in Foundry Local. Please load the model first."
    | some mi => .ok (runScenario mi scenario config env renv)

/-! ### Status registry traces

`BenchmarkEngine.runBenchmark` (logger.js lines 501-738) and the in-memory
`runningBenchmarks` map.  The entries written for one `runId`, in program
order:
1. `{id, status: 'running', progress: 0}` before the task starts (lines
   512-516);
2. after each scenario attempt the `finally` block increments
   `completedTasks` and calls `updateProgress` (lines 669-672), which writes
   `{id, status: 'running', progress: Math.round(completedTasks/totalTasks*100)}`
   (or `0` when `totalTasks` is `0`, lines 579-589);
3. on normal termination `{id, status: 'completed', progress: 100}` (lines
   691-695); on a coordinator-level exception
   `{id, status: 'failed', progress: 0, error}` (lines 720-725).
A skipped model never runs its scenario loop, so the number of `updateProgress`
calls (`updatedTasks` below) can be smaller than `totalTasks`; it never
exceeds it. -/

/-- Status of an entry of the `runningBenchmarks` map. -/
inductive RunStatus where
  | running
  | completed
  | failed
deriving Repr, DecidableEq

/-- One value of the `runningBenchmarks` map, as published by
`this.runningBenchmarks.set(runId, ...)`. -/
structure RegistryEntry where
  id : String
  status : RunStatus
  progress : ℕ
  error : Option String
deriving Repr, DecidableEq

/-- `updateProgress`'s progress value (logger.js line 580):
`totalTasks > 0 ? Math.round((completedTasks / totalTasks) * 100) : 0`. -/
def progressAt (completedTasks totalTasks : ℕ) : ℕ :=
  if 0 < totalTasks then
    (jsRound ((completedTasks : ℚ) / (totalTasks : ℚ) * 100)).toNat
  else 0

/-- How one execution of `runBenchmark` ends: normal termination, or a
coordinator-level exception caught at logger.js line 712. -/
inductive RunEnding where
  | completedRun
  | failedRun (msg : String)
deriving Repr, DecidableEq

/-- The ordered sequence of registry entries published for one run:
the initial entry, one entry per `updateProgress` call, and the terminal
entry.  `totalTasks = modelIds.length * suite.scenarios.length`;
`updatedTasks` is the number of scenario attempts that reached the `finally`
block before the run ended (`updatedTasks ≤ totalTasks`). -/
def publishedEntries (runId : String) (totalTasks updatedTasks : ℕ)
    (ending : RunEnding) : List RegistryEntry :=
  ⟨runId, .running, 0, none⟩ ::
    ((List.range updatedTasks).map
      (fun j => ⟨runId, .running, progressAt (j + 1) totalTasks, none⟩) ++
    [match ending with
     | .completedRun => ⟨runId, .completed, 100, none⟩
     | .failedRun msg => ⟨runId, .failed, 0, some msg⟩])

theorem progressAt_mono {c c' t : ℕ} (h : c ≤ c') : progressAt c t ≤ progressAt c' t := by
  unfold progressAt
  split
  · next ht =>
    have hq : ((c : ℚ) / (t : ℚ) * 100) ≤ ((c' : ℚ) / (t : ℚ) * 100) := by
      have hc : (c : ℚ) ≤ (c' : ℚ) := by exact_mod_cast h
      gcongr
    have := Int.floor_mono (add_le_add_right hq (1 / 2))
    unfold jsRound
    omega
  · exact le_rfl

theorem progressAt_le_100 {c t : ℕ} (h : c ≤ t) : progressAt c t ≤ 100 := by
  unfold progressAt
  split
  · next ht =>
    have hq : ((c : ℚ) / (t : ℚ) * 100) ≤ 100 := by
      have h1 : (c : ℚ) / (t : ℚ) ≤ 1 := by
        rw [div_le_one (by exact_mod_cast ht)]
        exact_mod_cast h
      calc (c : ℚ) / (t : ℚ) * 100 ≤ 1 * 100 :=
            mul_le_mul_of_nonneg_right h1 (by norm_num)
        _ = 100 := one_mul _
    have hfl : jsRound ((c : ℚ) / (t : ℚ) * 100) ≤ 100 := by
      unfold jsRound
      have h2 : ((c : ℚ) / (t : ℚ) * 100 + 1 / 2) ≤ (201 : ℚ) / 2 := by linarith
      have := Int.floor_mono h2
      have h3 : (⌊(201 : ℚ) / 2⌋ : ℤ) = 100 := by
        rw [Int.floor_eq_iff]
        norm_num
      omega
    omega
  · omega

/-! ### Storage: benchmark results and export

`Storage` (src/unnamed/part_007).  `saveBenchmarkResult` has two branches:
* JSON fallback (lines 845-853): `push({...result, created_at: Date.now()})` —
  every field of the computed result record is kept verbatim;
* SQLite (lines 855-884): every numeric column is bound as `result.field || null`,
  so a numeric `0` is stored as SQL `NULL`.
`getBenchmarkRun` is a keyed lookup (`data.benchmark_runs[id] || null`, or
`SELECT ... WHERE id = ?`); `getBenchmarkResults(runId)` filters rows by
`run_id`.  `exportToJSON`/`exportToCSV` (lines 968-995) never inspect whether
the run exists. -/

/-- The result record assembled by `runBenchmark` (logger.js lines 642-649)
before persistence: aggregate fields are plain numbers (rates are always
computed), token-time fields may be `null`. -/
structure ResultRecord where
  id : String
  run_id : String
  model_id : String
  scenario : String
  tps : ℚ
  ttft : Option ℚ
  tpot : Option ℚ
  gen_tps : Option ℚ
  latency_p50 : ℚ
  latency_p95 : ℚ
  latency_p99 : ℚ
  error_rate : ℚ
  timeout_rate : ℚ
  cpu_avg : Option ℚ
  ram_avg : Option ℚ
  gpu_avg : Option ℚ
deriving Repr, DecidableEq

/-- A persisted result row, as read back by `getBenchmarkResults` /
`getAllBenchmarkResults`: every numeric column is nullable. -/
structure StoredResultRow where
  id : String
  run_id : String
  model_id : String
  scenario : String
  tps : Option ℚ
  ttft : Option ℚ
  tpot : Option ℚ
  gen_tps : Option ℚ
  latency_p50 : Option ℚ
  latency_p95 : Option ℚ
  latency_p99 : Option ℚ
  error_rate : Option ℚ
  timeout_rate : Option ℚ
  cpu_avg : Option ℚ
  ram_avg : Option ℚ
  gpu_avg : Option ℚ
  created_at : ℕ
deriving Repr, DecidableEq

/-- The row written by the SQLite branch of `saveBenchmarkResult`
(part_007 lines 855-884): each numeric binding is `result.field || null`. -/
def sqliteRow (r : ResultRecord) (now : ℕ) : StoredResultRow :=
  { id := r.id
    run_id := r.run_id
    model_id := r.model_id
    scenario := r.scenario
    tps := jsOrNull r.tps
    ttft := jsOrNullOpt r.ttft
    tpot := jsOrNullOpt r.tpot
    gen_tps := jsOrNullOpt r.gen_tps
    latency_p50 := jsOrNull r.latency_p50
    latency_p95 := jsOrNull r.latency_p95
    latency_p99 := jsOrNull r.latency_p99
    error_rate := jsOrNull r.error_rate
    timeout_rate := jsOrNull r.timeout_rate
    cpu_avg := jsOrNullOpt r.cpu_avg
    ram_avg := jsOrNullOpt r.ram_avg
    gpu_avg := jsOrNullOpt r.gpu_avg
    created_at := now }

/-- The record stored by the JSON branch of `saveBenchmarkResult`
(part_007 lines 845-853): `{...result, created_at: Date.now()}`. -/
def jsonRow (r : ResultRecord) (now : ℕ) : StoredResultRow :=
  { id := r.id
    run_id := r.run_id
    model_id := r.model_id
    scenario := r.scenario
    tps := some r.tps
    ttft := r.ttft
    tpot := r.tpot
    gen_tps := r.gen_tps
    latency_p50 := some r.latency_p50
    latency_p95 := some r.latency_p95
    latency_p99 := some r.latency_p99
    error_rate := some r.error_rate
    timeout_rate := some r.timeout_rate
    cpu_avg := r.cpu_avg
    ram_avg := r.ram_avg
    gpu_avg := r.gpu_avg
    created_at := now }

/-- A persisted benchmark-run record (only the fields the export claims
need). -/
structure BenchmarkRunRecord where
  id : String
  suite_name : String
  status : String
  started_at : ℕ
  completed_at : Option ℕ
deriving Repr, DecidableEq

/-- The persistent state behind `Storage`: run records and result rows. -/
structure StorageState where
  runs : List BenchmarkRunRecord
  results : List StoredResultRow
deriving Repr, DecidableEq

/-- `Storage.saveBenchmarkResult`: appends the branch-converted row
(`useJson` selects the JSON fallback). -/
def saveBenchmarkResult (useJson : Bool) (s : StorageState) (r : ResultRecord)
    (now : ℕ) : StorageState :=
  { s with results := s.results ++ [if useJson then jsonRow r now else sqliteRow r now] }

/-- `Storage.getBenchmarkResults(runId)`: rows with matching `run_id`, in
insertion order. -/
def getBenchmarkResults (s : StorageState) (runId : String) : List StoredResultRow :=
  s.results.filter (fun row => row.run_id == runId)

/-- `Storage.getBenchmarkRun(id)`: keyed lookup, `null`/`undefined` when the
run does not exist. -/
def getBenchmarkRun (s : StorageState) (id : String) : Option BenchmarkRunRecord :=
  s.runs.find? (fun run => run.id == id)

/-- The object returned by `Storage.exportToJSON` (part_007 lines 968-977). -/
structure ExportJsonPayload where
  run : Option BenchmarkRunRecord
  results : List StoredResultRow
  exported_at : ℕ
deriving Repr, DecidableEq

/-- `Storage.exportToJSON(runId)`: always returns a payload; a missing run is
passed through as `null`. -/
def exportToJSON (s : StorageState) (runId : String) (now : ℕ) : ExportJsonPayload :=
  { run := getBenchmarkRun s runId
    results := getBenchmarkResults s runId
    exported_at := now }

/-- CSV field escaping (part_007 line 990): a string containing a comma is
surrounded by double quotes, everything else is passed through. -/
def csvEscape (s : String) : String :=
  if s.contains ',' then "\"" ++ s ++ "\"" else s

/-- CSV rendering of a nullable numeric cell: `null`/`undefined` become the
empty string.  Decimal formatting of numbers is abstracted by `toString`. -/
def csvCellOpt (v : Option ℚ) : String :=
  match v with
  | none => ""
  | some q => toString q

/-- The header keys of a stored result row, minus `raw_data`
(`Object.keys(results[0]).filter(k => k !== 'raw_data')`). -/
def csvHeaderKeys : List String :=
  ["id", "run_id", "model_id", "scenario", "tps", "ttft", "tpot", "gen_tps",
   "latency_p50", "latency_p95", "latency_p99", "error_rate", "timeout_rate",
   "cpu_avg", "ram_avg", "gpu_avg", "created_at"]

/-- One CSV data row, cells in header order. -/
def csvRowOf (row : StoredResultRow) : String :=
  String.intercalate ","
    [csvEscape row.id, csvEscape row.run_id, csvEscape row.model_id,
     csvEscape row.scenario, csvCellOpt row.tps, csvCellOpt row.ttft,
     csvCellOpt row.tpot, csvCellOpt row.gen_tps, csvCellOpt row.latency_p50,
     csvCellOpt row.latency_p95, csvCellOpt row.latency_p99,
     csvCellOpt row.error_rate, csvCellOpt row.timeout_rate,
     csvCellOpt row.cpu_avg, csvCellOpt row.ram_avg, csvCellOpt row.gpu_avg,
     toString row.created_at]

/-- `Storage.exportToCSV(runId)` (part_007 lines 979-995): empty string when
the run has no rows (in particular when the run does not exist), otherwise
header line plus one line per row. -/
def exportToCSV (s : StorageState) (runId : String) : String :=
  let results := getBenchmarkResults s runId
  if results.length = 0 then ""
  else String.intercalate "\n"
    (String.intercalate "," csvHeaderKeys :: results.map csvRowOf)

/-- `GET /api/benchmarks/runs/:id/export/json` (part_008 lines 563-576):
the handler serves `exportToJSON` with HTTP 200; the `catch` branch (500) is
unreachable because `exportToJSON` is total — a missing run is not an error. -/
def exportJsonRoute (s : StorageState) (runId : String) (now : ℕ) :
    ℕ × ExportJsonPayload :=
  (200, exportToJSON s runId now)

/-- `GET /api/benchmarks/runs/:id/export/csv` (part_008 lines 582-593):
serves `exportToCSV` with HTTP 200, same reasoning. -/
def exportCsvRoute (s : StorageState) (runId : String) : ℕ × String :=
  (200, exportToCSV s runId)

/-- A storage state with no runs and no results. -/
def emptyStorage : StorageState := ⟨[], []⟩

/-- `sortAscending` produces an ascending-sorted list. -/
theorem sortAscending_sorted (l : List ℚ) : (sortAscending l).Sorted (· ≤ ·) :=
  List.sorted_insertionSort (· ≤ ·) l

/-- `jsOrNull` yields `null` exactly on the value `0`. -/
theorem jsOrNull_eq_none (x : ℚ) : jsOrNull x = none ↔ x = 0 := by
  unfold jsOrNull
  split <;> simp_all

/-- For sorted input and percentile arguments within `1..100`, a smaller
percentile selects a value `≤` the one a larger percentile selects. -/
theorem calculatePercentile_mono_of_sorted (L : List ℚ) (hL : L.Sorted (· ≤ ·))
    {p q : ℕ} (hp : 1 ≤ p) (hq : q ≤ 100) (hpq : p ≤ q) :
    calculatePercentile L p ≤ calculatePercentile L q := by
  rcases eq_or_ne L [] with rfl | hne
  · simp [calculatePercentile]
  · have hlen : 0 < L.length := List.length_pos.mpr hne
    have hlenne : ¬ (L.length = 0) := by omega
    rw [calculatePercentile, calculatePercentile, if_neg hlenne, if_neg hlenne]
    exact sorted_getD_le L hL _ _ (percentileIndex_mono hpq)
      (percentileIndex_lt hlen (hp.trans hpq) hq)

/-! ### Concrete fixtures used by witnesses and counterexamples -/

/-- A loaded-model info whose canonical `id` differs from its `alias`. -/
def mi0 : LoadedModelInfo := ⟨"Phi-3-mini-4k-instruct-generic-cpu:1", "phi-3-mini"⟩

/-- A one-prompt scenario. -/
def sc0 : Scenario := ⟨"short-prompt", "Hi", some 20⟩

/-- A streaming config with a single iteration. -/
def cfg1 : RunConfig := ⟨1, some 30000, some (7 / 10), true⟩

/-- A streaming config with three iterations and a 5 s deadline. -/
def cfgTimeout : RunConfig := ⟨3, some 5000, none, true⟩

/-- A resource snapshot with CPU and RAM samples and no GPU. -/
def snap0 : Snapshot := ⟨⟨none, none, none⟩, ⟨some 42, some 55, none⟩⟩

/-- Environment in which every request is aborted by the deadline. -/
def timeoutEnv : ℕ → BackendOutcome :=
  fun _ => .timeoutAbort "Request was aborted." 0 none [] 6000

/-- One successful streaming iteration: 5 tokens, 130 ms latency. -/
def okIteration : IterationMetrics :=
  { latency := 130, ttft := some 50, tokens := 5, interTokenDelays := [20, 20, 20, 20],
    error := none, timeout := false }

/-! ### C5 — percentile formula and bounds -/

/-- C5.  For K ∈ {50, 95, 99}: `calculatePercentile` returns 0 on an empty
list; on a non-empty list it returns the element at index
`max(0, ceil(K/100 × |L|) − 1)`, which is always in bounds (so for `|L| = 100`
the index is at most 99, and no out-of-range access occurs); and for a
singleton list every percentile is the single element. -/
theorem percentile_formula (L : List ℚ) (K : ℕ) (hK : K = 50 ∨ K = 95 ∨ K = 99) :
    (L = [] → calculatePercentile L K = 0) ∧
    (L ≠ [] → percentileIndex L.length K < L.length ∧
      calculatePercentile L K = L.getD (percentileIndex L.length K) 0) ∧
    (L.length = 100 → percentileIndex L.length K ≤ 99) ∧
    (∀ x : ℚ, L = [x] → calculatePercentile L K = x) := by
  have hK1 : 1 ≤ K := by rcases hK with rfl | rfl | rfl <;> norm_num
  have hK100 : K ≤ 100 := by rcases hK with rfl | rfl | rfl <;> norm_num
  refine ⟨?_, ?_, ?_, ?_⟩
  · rintro rfl
    rfl
  · intro hne
    have hlen : 0 < L.length := List.length_pos.mpr hne
    refine ⟨percentileIndex_lt hlen hK1 hK100, ?_⟩
    rw [calculatePercentile, if_neg (by omega)]
  · intro h100
    have := @percentileIndex_lt L.length K (by omega) hK1 hK100
    omega
  · rintro x rfl
    have hidx : percentileIndex ([x] : List ℚ).length K < 1 :=
      @percentileIndex_lt 1 K (by norm_num) hK1 hK100
    have h0 : percentileIndex ([x] : List ℚ).length K = 0 := by omega
    rw [calculatePercentile, if_neg (by norm_num), h0]
    rfl

theorem percentile_formula_witness :
    percentileIndex 1 50 < 1 ∧ calculatePercentile [(7 : ℚ)] 50 = 7 :=
  ⟨((percentile_formula [(7 : ℚ)] 50 (Or.inl rfl)).2.1 (by simp)).1,
    (percentile_formula [(7 : ℚ)] 50 (Or.inl rfl)).2.2.2 7 rfl⟩

/-! ### C6 — percentile ordering over the aggregate -/

/-- C6.  Every aggregate produced by the scenario aggregation satisfies
`latency_p50 ≤ latency_p95 ≤ latency_p99` (percentile extraction over the
sorted successful-latency list is monotone in the percentile). -/
theorem percentile_order_monotone (cfgIterations : ℕ) (ms : List IterationMetrics)
    (snaps : List Snapshot) :
    (aggregateScenario cfgIterations ms snaps).latency_p50 ≤
      (aggregateScenario cfgIterations ms snaps).latency_p95 ∧
    (aggregateScenario cfgIterations ms snaps).latency_p95 ≤
      (aggregateScenario cfgIterations ms snaps).latency_p99 := by
  have hsorted := sortAscending_sorted (successLatencies ms)
  constructor
  · exact calculatePercentile_mono_of_sorted _ hsorted (by norm_num) (by norm_num) (by norm_num)
  · exact calculatePercentile_mono_of_sorted _ hsorted (by norm_num) (by norm_num) (by norm_num)

/-! ### C7 — tokens-per-second formula -/

/-- C7.  `tps` equals the token total over successful iterations divided by
the successful-latency total in seconds, and is 0 whenever that denominator is
0 (in particular when every iteration fails and the successful set is empty) —
no division by zero occurs. -/
theorem tps_formula (cfgIterations : ℕ) (ms : List IterationMetrics)
    (snaps : List Snapshot) :
    ((successLatencies ms).sum = 0 →
      (aggregateScenario cfgIterations ms snaps).tps = 0) ∧
    (0 < (successLatencies ms).sum →
      (aggregateScenario cfgIterations ms snaps).tps =
        ((successTokenCounts ms).sum : ℚ) / ((successLatencies ms).sum / 1000)) := by
  constructor
  · intro h
    simp [aggregateScenario, h]
  · intro h
    have hpos : (0 : ℚ) < (successLatencies ms).sum / 1000 := by positivity
    simp [aggregateScenario, hpos]

theorem tps_formula_witness :
    (aggregateScenario 1 [okIteration] [snap0]).tps =
      ((successTokenCounts [okIteration]).sum : ℚ) /
        ((successLatencies [okIteration]).sum / 1000) :=
  (tps_formula 1 [okIteration] [snap0]).2
    (by norm_num [successLatencies, isSuccess, okIteration])

/-! ### C10 — `|| null` coercion on resource averages -/

/-- C10.  The aggregated `cpu_avg`/`ram_avg`/`gpu_avg` are `null` exactly when
the raw computed mean is 0 (the `|| null` coercion); so not only the
no-samples case but also a genuine all-zero utilization average is reported
as `null` rather than `0`. -/
theorem avg_null_coercion (snaps : List Snapshot) :
    (avgCpu snaps = none ↔ cpuMeanRaw snaps = 0) ∧
    (avgRam snaps = none ↔ ramMeanRaw snaps = 0) ∧
    (avgGpu snaps = none ↔ gpuMeanRaw snaps = 0) ∧
    (∀ cfgIterations ms,
      (aggregateScenario cfgIterations ms snaps).cpu_avg = avgCpu snaps ∧
      (aggregateScenario cfgIterations ms snaps).ram_avg = avgRam snaps ∧
      (aggregateScenario cfgIterations ms snaps).gpu_avg = avgGpu snaps) ∧
    ((∀ r ∈ snaps, r.after.cpu = some 0) → avgCpu snaps = none) ∧
    ((∀ r ∈ snaps, r.after.gpu = some 0) → avgGpu snaps = none) := by
  refine ⟨jsOrNull_eq_none _, jsOrNull_eq_none _, jsOrNull_eq_none _,
    fun cfgIterations ms => ⟨rfl, rfl, rfl⟩, ?_, ?_⟩
  · intro hall
    rw [avgCpu, jsOrNull_eq_none, cpuMeanRaw]
    have hsum : ((snaps.filter (fun r => r.after.cpu.isSome)).map
        (fun r => r.after.cpu.getD 0)).sum = 0 := by
      apply List.sum_eq_zero
      intro x hx
      rcases List.mem_map.mp hx with ⟨r, hr, rfl⟩
      rw [hall r (List.mem_of_mem_filter hr)]
      rfl
    rw [hsum, zero_div]
  · intro hall
    rw [avgGpu, jsOrNull_eq_none, gpuMeanRaw]
    have hsum : ((snaps.filter (fun r => r.after.gpu.isSome)).map
        (fun r => r.after.gpu.getD 0)).sum = 0 := by
      apply List.sum_eq_zero
      intro x hx
      rcases List.mem_map.mp hx with ⟨r, hr, rfl⟩
      rw [hall r (List.mem_of_mem_filter hr)]
      rfl
    rw [hsum, zero_div]

/-- An all-zero-utilization snapshot. -/
def snapAllZero : Snapshot := ⟨⟨none, none, none⟩, ⟨some 0, some 0, some 0⟩⟩

theorem avg_null_coercion_witness :
    avgCpu [snapAllZero] = none ∧ avgGpu [snapAllZero] = none :=
  ⟨(avg_null_coercion [snapAllZero]).2.2.2.2.1
      (by intro r hr; rw [List.mem_singleton] at hr; rw [hr]; rfl),
    (avg_null_coercion [snapAllZero]).2.2.2.2.2
      (by intro r hr; rw [List.mem_singleton] at hr; rw [hr]; rfl)⟩

/-! ### C2 — identifier passed to the inference client -/

/-- Every request issued by `runScenario` is the one built by
`runSingleInference`. -/
theorem runScenario_requests (modelInfo : LoadedModelInfo) (scenario : Scenario)
    (config : RunConfig) (env : ℕ → BackendOutcome) (renv : ℕ → Snapshot) :
    (runScenario modelInfo scenario config env renv).2 =
      (List.range config.iterations).map
        (fun _ => buildChatRequest modelInfo scenario config) := rfl

/-- C2.  The `model` argument of every chat-completion request issued by the
benchmark engine (streaming or not, for any backend behaviour) equals the
`id` of the `LoadedModelInfo` the orchestrator supplied; whenever an alias or
a raw `model_id` string differs from that `id`, the request's `model` is not
that string. -/
theorem inference_model_identifier (modelInfo : LoadedModelInfo) (scenario : Scenario)
    (config : RunConfig) (env : ℕ → BackendOutcome) (renv : ℕ → Snapshot)
    (req : ChatRequest)
    (hreq : req ∈ (runScenario modelInfo scenario config env renv).2) :
    req.model = modelInfo.id ∧
    (modelInfo.alias ≠ modelInfo.id → req.model ≠ modelInfo.alias) ∧
    (∀ d : ModelDescriptor, d.alias ≠ modelInfo.id → req.model ≠ d.alias) ∧
    (∀ d : ModelDescriptor, d.model_id ≠ modelInfo.id → req.model ≠ d.model_id) := by
  have hm : req.model = modelInfo.id := by
    rw [runScenario_requests] at hreq
    rcases List.mem_map.mp hreq with ⟨i, _, rfl⟩
    rfl
  exact ⟨hm, fun h heq => h (hm ▸ heq).symm,
    fun d h heq => h (hm ▸ heq).symm,
    fun d h heq => h (hm ▸ heq).symm⟩

theorem inference_model_identifier_witness :
    (buildChatRequest mi0 sc0 cfg1).model = mi0.id ∧
    (buildChatRequest mi0 sc0 cfg1).model ≠ mi0.alias :=
  have h := inference_model_identifier mi0 sc0 cfg1
    (fun _ => .success 5 (some 50) [20, 20, 20, 20] 130) (fun _ => snap0)
    (buildChatRequest mi0 sc0 cfg1) (by rw [runScenario_requests]; simp [cfg1])
  ⟨h.1, h.2.1 (by decide)⟩

/-! ### C1 — all-iterations-timeout aggregate -/

/-- C1 (code evaluation at the failing input).  When every iteration of a
scenario is aborted by the deadline, the timer callback sets
`metrics.timeout = true` **and** the aborted `await` throws, so the catch
block also sets `metrics.error`; lines 415-416 of logger.js then count the
same iteration in `results.errors` and in `results.timeouts`.  The aggregate
therefore has `timeout_rate = 100` but also `error_rate = 100` (the claim
expects 0) and `successful_iterations = -3` (the claim expects 0); the
latency percentiles and `tps` are 0 as claimed. -/
theorem aggregate_all_timeout_eval :
    (runScenario mi0 sc0 cfgTimeout timeoutEnv (fun _ => snap0)).1.timeout_rate = 100 ∧
    (runScenario mi0 sc0 cfgTimeout timeoutEnv (fun _ => snap0)).1.error_rate = 100 ∧
    (runScenario mi0 sc0 cfgTimeout timeoutEnv (fun _ => snap0)).1.successful_iterations
      = -3 ∧
    (runScenario mi0 sc0 cfgTimeout timeoutEnv (fun _ => snap0)).1.latency_p50 = 0 ∧
    (runScenario mi0 sc0 cfgTimeout timeoutEnv (fun _ => snap0)).1.latency_p95 = 0 ∧
    (runScenario mi0 sc0 cfgTimeout timeoutEnv (fun _ => snap0)).1.latency_p99 = 0 ∧
    (runScenario mi0 sc0 cfgTimeout timeoutEnv (fun _ => snap0)).1.tps = 0 ∧
    (runScenario mi0 sc0 cfgTimeout timeoutEnv (fun _ => snap0)).1.ttft = none ∧
    (runScenario mi0 sc0 cfgTimeout timeoutEnv (fun _ => snap0)).1.tpot = none ∧
    (runScenario mi0 sc0 cfgTimeout timeoutEnv (fun _ => snap0)).1.gen_tps = none := by
  norm_num [runScenario, aggregateScenario, calculatePercentile, sortAscending,
    successLatencies, successTtfts, successTokenCounts, successInterTokenDelays,
    errorCount, timeoutCount, isSuccess, runSingleInference, cfgTimeout, timeoutEnv,
    List.range_succ]

/-! ### C3 — progress monotonicity -/

/-- The progress values of the entries published for a normally terminating
run. -/
theorem published_progress_completed (runId : String) (t k : ℕ) :
    (publishedEntries runId t k .completedRun).map (fun e => e.progress) =
      0 :: ((List.range k).map (fun j => progressAt (j + 1) t) ++ [100]) := by
  simp [publishedEntries, Function.comp]

/-- The progress values of the entries published for a run that fails. -/
theorem published_progress_failed (runId : String) (t k : ℕ) (msg : String) :
    (publishedEntries runId t k (.failedRun msg)).map (fun e => e.progress) =
      0 :: ((List.range k).map (fun j => progressAt (j + 1) t) ++ [0]) := by
  simp [publishedEntries, Function.comp]

/-- Appending a value dominating a sorted list keeps it sorted. -/
theorem sorted_append_singleton (l : List ℕ) (c : ℕ) (hl : l.Sorted (· ≤ ·))
    (hc : ∀ x ∈ l, x ≤ c) : (l ++ [c]).Sorted (· ≤ ·) := by
  rw [List.Sorted, List.pairwise_append]
  refine ⟨hl, List.pairwise_singleton _ _, ?_⟩
  intro a ha b hb
  rw [List.mem_singleton] at hb
  exact hb ▸ hc a ha

/-- The non-terminal prefix of the published progress values is sorted. -/
theorem progress_prefix_sorted (t k : ℕ) :
    (0 :: (List.range k).map (fun j => progressAt (j + 1) t)).Sorted (· ≤ ·) := by
  rw [List.sorted_cons]
  refine ⟨fun b _ => Nat.zero_le b, ?_⟩
  rw [List.Sorted, List.pairwise_map]
  exact (List.sorted_lt_range k).imp (fun hab => progressAt_mono (by omega))

/-- C3 counterexample.  A run that reaches progress 100 and then hits a
coordinator-level failure has its registry entry reset to
`{status: failed, progress: 0}` (logger.js lines 720-725), so the published
progress sequence 0, 100, 0 is not non-decreasing. -/
theorem progress_regression_on_failure :
    ¬ (((publishedEntries "r" 1 1 (.failedRun "saveLog failed")).map
        (fun e => e.progress)).Sorted (· ≤ ·)) := by
  intro hsorted
  rw [published_progress_failed] at hsorted
  have hr : List.range 1 = [0] := rfl
  have h1 : progressAt 1 1 = 100 := by
    rw [progressAt, if_pos (by omega)]
    norm_num [jsRound]
    rfl
  rw [hr, List.map_singleton, h1] at hsorted
  have h2 := (List.sorted_cons.mp hsorted).2
  rw [List.singleton_append, List.sorted_cons] at h2
  have := h2.1 0 (List.mem_singleton.mpr rfl)
  omega

/-- C3 amended.  Within one run the progress values published by
`updateProgress` are non-decreasing (the initial 0 included), and a run that
terminates normally publishes 100 last, so its whole registry sequence is
non-decreasing; but an execution that ends in status `failed` publishes a
final 0, so only the sequence without that terminal reset is non-decreasing. -/
theorem progress_monotone_amended (runId : String) (t k : ℕ) (hk : k ≤ t) (msg : String) :
    (((publishedEntries runId t k .completedRun).map (fun e => e.progress)).Sorted
      (· ≤ ·)) ∧
    ((((publishedEntries runId t k (.failedRun msg)).map
        (fun e => e.progress)).dropLast).Sorted (· ≤ ·)) := by
  have hbound : ∀ x ∈ (List.range k).map (fun j => progressAt (j + 1) t), x ≤ 100 := by
    intro x hx
    rcases List.mem_map.mp hx with ⟨j, hj, rfl⟩
    rw [List.mem_range] at hj
    exact progressAt_le_100 (by omega)
  constructor
  · rw [published_progress_completed, ← List.cons_append]
    apply sorted_append_singleton _ _ (progress_prefix_sorted t k)
    intro x hx
    rcases List.mem_cons.mp hx with rfl | hx
    · omega
    · exact hbound x hx
  · rw [published_progress_failed, ← List.cons_append, List.dropLast_append_of_ne_nil]
    · rw [List.dropLast_single, List.append_nil]
      exact progress_prefix_sorted t k
    · simp

theorem progress_monotone_amended_witness :
    ((publishedEntries "w" 2 2 .completedRun).map (fun e => e.progress)).Sorted
      (· ≤ ·) :=
  (progress_monotone_amended "w" 2 2 (by omega) "m").1

/-! ### C4 — progress 100 iff completed -/

/-- C4 counterexample.  After the last task's `finally` block runs,
`updateProgress` publishes `{status: 'running', progress: 100}` (logger.js
lines 579-589) and only afterwards does the completion branch publish
`{status: 'completed', progress: 100}`: a registry state with progress 100
and status `running` is reachable, refuting the iff. -/
theorem running_with_progress_100_reachable :
    (⟨"r", RunStatus.running, 100, none⟩ : RegistryEntry) ∈
      publishedEntries "r" 1 1 .completedRun ∧
    RunStatus.running ≠ RunStatus.completed := by
  constructor
  · have h1 : progressAt 1 1 = 100 := by
      rw [progressAt, if_pos (by omega)]
      norm_num [jsRound]
      rfl
    simp only [publishedEntries, List.mem_cons, List.mem_append, List.mem_map,
      List.mem_range]
    exact Or.inr (Or.inl ⟨0, by omega, by rw [h1]⟩)
  · decide

/-- C4 amended.  In every reachable registry state, status `completed` implies
progress 100 and status `failed` implies progress 0, and progress never
exceeds 100; but the converse direction fails: a state with status `running`
and progress 100 is reachable just before the terminal transition. -/
theorem registry_terminal_progress (runId : String) (t k : ℕ) (hk : k ≤ t)
    (ending : RunEnding) (e : RegistryEntry)
    (he : e ∈ publishedEntries runId t k ending) :
    (e.status = .completed → e.progress = 100) ∧
    (e.status = .failed → e.progress = 0) ∧
    e.progress ≤ 100 := by
  rcases ending with _ | msg
  · simp only [publishedEntries, List.mem_cons, List.mem_append] at he
    rcases he with rfl | he | rfl | h0
    · exact ⟨fun h => by simp at h, fun h => by simp at h, Nat.zero_le 100⟩
    · rcases List.mem_map.mp he with ⟨j, hj, rfl⟩
      rw [List.mem_range] at hj
      exact ⟨fun h => by simp at h, fun h => by simp at h,
        progressAt_le_100 (by omega)⟩
    · exact ⟨fun _ => rfl, fun h => by simp at h, Nat.le_refl 100⟩
    · exact absurd h0 (by simp)
  · simp only [publishedEntries, List.mem_cons, List.mem_append] at he
    rcases he with rfl | he | rfl | h0
    · exact ⟨fun h => by simp at h, fun h => by simp at h, Nat.zero_le 100⟩
    · rcases List.mem_map.mp he with ⟨j, hj, rfl⟩
      rw [List.mem_range] at hj
      exact ⟨fun h => by simp at h, fun h => by simp at h,
        progressAt_le_100 (by omega)⟩
    · exact ⟨fun h => by simp at h, fun _ => rfl, Nat.zero_le 100⟩
    · exact absurd h0 (by simp)

theorem registry_terminal_progress_witness :
    RegistryEntry.progress ⟨"w", RunStatus.completed, 100, none⟩ = 100 :=
  (registry_terminal_progress "w" 1 1 (by omega) .completedRun
    ⟨"w", .completed, 100, none⟩
    (by simp [publishedEntries])).1 rfl

/-! ### C8 — persisted error/timeout rates -/

/-- A result record whose computed rates are 0 (the all-success case). -/
def rec0 : ResultRecord :=
  { id := "res-1", run_id := "run-1", model_id := "m-1", scenario := "short-prompt",
    tps := 25, ttft := some 50, tpot := some 20, gen_tps := some 50,
    latency_p50 := 130, latency_p95 := 130, latency_p99 := 130,
    error_rate := 0, timeout_rate := 0,
    cpu_avg := some 42, ram_avg := some 55, gpu_avg := none }

/-- C8 counterexample.  In the SQLite branch the rate columns are bound as
`result.error_rate || null` / `result.timeout_rate || null`, so a computed 0
is persisted as SQL `NULL`: saving `rec0` (rates 0) and reading the run's
results back yields a row whose `error_rate` and `timeout_rate` are both
`null`, not populated. -/
theorem zero_error_rate_stored_null :
    rec0.error_rate = 0 ∧ rec0.timeout_rate = 0 ∧
    ((getBenchmarkResults (saveBenchmarkResult false emptyStorage rec0 1111)
        "run-1").map (fun row => (row.error_rate, row.timeout_rate))) =
      [(none, none)] := by
  refine ⟨rfl, rfl, ?_⟩
  rfl

/-- C8 amended.  A persisted result read back by `getBenchmarkResults` always
carries `error_rate`/`timeout_rate` fields, but their population depends on
the branch: the JSON branch preserves every computed value, 0 included, while
the SQLite branch's `|| null` binding turns a computed 0 rate into `null` —
the rates are non-null exactly when they are non-zero. -/
theorem saved_rates_roundtrip (s : StorageState) (r : ResultRecord) (now : ℕ) :
    (jsonRow r now ∈
        getBenchmarkResults (saveBenchmarkResult true s r now) r.run_id ∧
      (jsonRow r now).error_rate = some r.error_rate ∧
      (jsonRow r now).timeout_rate = some r.timeout_rate) ∧
    (sqliteRow r now ∈
        getBenchmarkResults (saveBenchmarkResult false s r now) r.run_id ∧
      ((sqliteRow r now).error_rate = none ↔ r.error_rate = 0) ∧
      ((sqliteRow r now).timeout_rate = none ↔ r.timeout_rate = 0)) := by
  refine ⟨⟨?_, rfl, rfl⟩, ⟨?_, jsOrNull_eq_none _, jsOrNull_eq_none _⟩⟩
  · apply List.mem_filter.mpr
    refine ⟨?_, ?_⟩
    · exact List.mem_append_right _ (by simp)
    · simp [jsonRow]
  · apply List.mem_filter.mpr
    refine ⟨?_, ?_⟩
    · exact List.mem_append_right _ (by simp)
    · simp [sqliteRow]

/-! ### C9 — export of a nonexistent run -/

/-- C9 counterexample.  Exporting a run id absent from storage does not fail
with `NotFound`: the JSON route answers HTTP 200 with `run: null` and an
empty result list, and the CSV route answers HTTP 200 with an empty string
(part_007 lines 968-995 never check run existence; the part_008 handlers'
`catch` branch is never taken). -/
theorem export_missing_run_succeeds :
    exportJsonRoute emptyStorage "no-such-run" 0 =
      (200, { run := none, results := [], exported_at := 0 }) ∧
    exportCsvRoute emptyStorage "no-such-run" = (200, "") := by
  exact ⟨rfl, rfl⟩

/-- C9 amended.  Both export operations always answer HTTP 200; when the run
id is unknown the JSON payload carries `run = null` (and the CSV text is
empty whenever the run has no result rows). -/
theorem export_missing_run_amended (s : StorageState) (runId : String) (now : ℕ) :
    (exportJsonRoute s runId now).1 = 200 ∧
    (exportCsvRoute s runId).1 = 200 ∧
    (getBenchmarkRun s runId = none → (exportJsonRoute s runId now).2.run = none) ∧
    (getBenchmarkResults s runId = [] → (exportCsvRoute s runId).2 = "") := by
  refine ⟨rfl, rfl, ?_, ?_⟩
  · intro h
    simp [exportJsonRoute, exportToJSON, h]
  · intro h
    simp [exportCsvRoute, exportToCSV, h]

theorem export_missing_run_amended_witness :
    (exportJsonRoute emptyStorage "no-run" 5).2.run = none ∧
    (exportCsvRoute emptyStorage "no-run").2 = "" :=
  ⟨(export_missing_run_amended emptyStorage "no-run" 5).2.2.1 rfl,
    (export_missing_run_amended emptyStorage "no-run" 5).2.2.2 rfl⟩
